import Mathlib

/-!
Shallow embedding of the workflow-orchestration core of the Google Flow
Automation Pro browser extension: the background service worker (the
workflow Coordinator) and the popup's prompt registry / progress
projection, translated from the repository sources.

Pure data manipulation is mirrored directly; asynchronous effects
(notifications sent to the popup, messages sent to the page tab) are
returned explicitly as lists, and environment conditions (whether the
active tab is on the target site, whether `chrome.tabs.sendMessage`
succeeds) are passed as boolean parameters.  JavaScript numbers are
modelled as `Nat`/`Rat` (all arithmetic in the sources is exact at these
magnitudes), JS `Map`/`Set` values as association lists / lists.
-/

namespace Flow

/-- Per-item status: the four status strings used throughout the sources. -/
inductive Status
  | pending
  | submitted
  | completed
  | failed
  deriving DecidableEq

/-- A prompt item as created by the popup's `addPrompts` (`id`, `text`,
`status`, `createdAt`); the `error` field is attached later by
`handleGenerationFailed`. -/
structure Prompt where
  id : Nat
  text : String
  status : Status
  error : Option String := none
  createdAt : Nat := 0
  deriving DecidableEq

/-- The settings object `{ outputCount, downloadFolder, intervalSeconds }`. -/
structure Settings where
  outputCount : Nat
  downloadFolder : String
  intervalSeconds : Nat
  deriving DecidableEq

/-- Events the background sends to the popup through `notifyPopup` /
`notifyError` (`PROMPT_SUBMITTED`, `PROMPT_COMPLETED`, `PROMPT_FAILED`,
`WORKFLOW_COMPLETED`, `CONNECTION_STATUS`, `ERROR`). -/
inductive Notification
  | promptSubmitted (promptId currentIndex : Nat)
  | promptCompleted (promptId : Nat)
  | promptFailed (promptId : Nat) (error : String)
  | workflowCompleted
  | connectionStatus (connected : Bool)
  | errorMsg (message : String)
  deriving DecidableEq

/-- Messages the background sends to the content script via
`chrome.tabs.sendMessage` (`SUBMIT_PROMPT`, `DOWNLOAD_BLOB`). -/
inductive TabMessage
  | submitPrompt (promptId index : Nat)
  | downloadBlob (blobUrl filename : String) (promptId : Nat)
  deriving DecidableEq

/-- A runtime message as received by the background's `onMessage`
listener: a JS object with a `type` string plus the fields the various
senders populate (absent fields are given inert defaults, as reading an
absent field in the source only happens in the case that populates it). -/
structure Message where
  type : String
  prompts : List Prompt := []
  settings : Settings := ⟨2, "FlowGenerations", 2⟩
  startIndex : Nat := 0
  currentIndex : Nat := 0
  promptId : Nat := 0
  imageUrls : List String := []
  error : String := ""
  dataUrl : String := ""
  filename : String := ""
  deriving DecidableEq

/-- The background's `workflowState` global: `pendingDownloads` (a
`Map` from prompt id to `{ total, completed }`) as an association list
`(id, total, completed)`, and `processedPrompts` (a `Set` of ids) as a
list. -/
structure WorkflowState where
  isRunning : Bool
  isPaused : Bool
  currentIndex : Nat
  prompts : List Prompt
  settings : Settings
  pendingDownloads : List (Nat × Nat × Nat)
  processedPrompts : List Nat
  deriving DecidableEq

/-- The background's full mutable state: `workflowState` plus whether the
dispatch interval (`workflowInterval`) is currently armed (non-null). -/
structure BgState where
  ws : WorkflowState
  timerArmed : Bool
  deriving DecidableEq

/-- Environment conditions of a control command: whether the active tab
is on `labs.google/fx/tools/flow`, and whether `chrome.tabs.sendMessage`
to the content script succeeds (it throws when the tab is unreachable). -/
structure Env where
  tabOnFlowPage : Bool
  delegationOk : Bool

/-- The status of the item with a given id, observed the way the source
does (`prompts.find(p => p.id === promptId)`). -/
def statusOf (prompts : List Prompt) (promptId : Nat) : Option Status :=
  (prompts.find? (fun p => p.id == promptId)).map (fun p => p.status)

/-- The recorded error of the item with a given id. -/
def errorOf (prompts : List Prompt) (promptId : Nat) : Option (Option String) :=
  (prompts.find? (fun p => p.id == promptId)).map (fun p => p.error)

/-- In-place mutation of the first prompt with the given id, as the
source's `const prompt = prompts.find(...); prompt.field = ...;`. -/
def updateFirst (prompts : List Prompt) (promptId : Nat) (f : Prompt → Prompt) : List Prompt :=
  match prompts with
  | [] => []
  | p :: rest => if p.id == promptId then f p :: rest else p :: updateFirst rest promptId f

/-- Source `handleGenerationFailed(promptId, error)`: if an item with this id
exists, set its status to `failed`, record the error, and notify the
popup with `PROMPT_FAILED`; otherwise do nothing. -/
def handleGenerationFailed (ws : WorkflowState) (promptId : Nat) (error : String) :
    WorkflowState × List Notification :=
  match ws.prompts.find? (fun p => p.id == promptId) with
  | some _ =>
    let f := fun p => { p with status := Status.failed, error := some error }
    ({ ws with prompts := updateFirst ws.prompts promptId f },
     [Notification.promptFailed promptId error])
  | none => (ws, [])

/-- Source `handleDownloadComplete(promptId)`: if an item with this id exists,
set its status to `completed` and notify the popup with
`PROMPT_COMPLETED`; otherwise do nothing. -/
def handleDownloadComplete (ws : WorkflowState) (promptId : Nat) :
    WorkflowState × List Notification :=
  match ws.prompts.find? (fun p => p.id == promptId) with
  | some _ =>
    let f := fun p => { p with status := Status.completed }
    ({ ws with prompts := updateFirst ws.prompts promptId f },
     [Notification.promptCompleted promptId])
  | none => (ws, [])

/-- Lookup in the `pendingDownloads` map. -/
def lookupPending (pd : List (Nat × Nat × Nat)) (id : Nat) : Option (Nat × Nat) :=
  match pd with
  | [] => none
  | (k, t, c) :: rest => if k = id then some (t, c) else lookupPending rest id

/-- The `Map.set` operation on `pendingDownloads`. -/
def setPending (pd : List (Nat × Nat × Nat)) (id t c : Nat) : List (Nat × Nat × Nat) :=
  match pd with
  | [] => [(id, t, c)]
  | (k, t0, c0) :: rest =>
    if k = id then (id, t, c) :: rest else (k, t0, c0) :: setPending rest id t c

/-- The `Map.delete` operation on `pendingDownloads`. -/
def removePending (pd : List (Nat × Nat × Nat)) (id : Nat) : List (Nat × Nat × Nat) :=
  match pd with
  | [] => []
  | (k, t0, c0) :: rest => if k = id then rest else (k, t0, c0) :: removePending rest id

/-- Source `checkDownloadComplete(promptId)`: increment the `completed` counter
of the item's `pendingDownloads` entry; once it reaches `total`, drop the
entry and run `handleDownloadComplete`. -/
def checkDownloadComplete (ws : WorkflowState) (promptId : Nat) :
    WorkflowState × List Notification :=
  match lookupPending ws.pendingDownloads promptId with
  | none => (ws, [])
  | some (total, completed) =>
    if total ≤ completed + 1 then
      handleDownloadComplete
        { ws with pendingDownloads := removePending ws.pendingDownloads promptId } promptId
    else
      ({ ws with pendingDownloads := setPending ws.pendingDownloads promptId total (completed + 1) },
       [])

/-- Eligibility of the item at position `i` in the dispatch scan of
`processNextPrompt`: `i >= currentIndex && status === 'pending' &&
!processedPrompts.has(id)`. -/
abbrev eligibleAt (cursor : Nat) (processed : List Nat) (i : Nat) (p : Prompt) : Prop :=
  cursor ≤ i ∧ p.status = Status.pending ∧ p.id ∉ processed

/-- The scan of `prompts.findIndex((p, i) => ...)` in `processNextPrompt`,
carrying the running position `i` and returning the found position
together with the found item (`prompts[pendingIndex]`). -/
def findPendingFrom (cursor : Nat) (processed : List Nat) :
    Nat → List Prompt → Option (Nat × Prompt)
  | _, [] => none
  | i, p :: rest =>
    if eligibleAt cursor processed i p then some (i, p)
    else findPendingFrom cursor processed (i + 1) rest

/-- The next eligible pending item of a workflow state, scanned from
position 0 as `findIndex` does. -/
def findPending (ws : WorkflowState) : Option (Nat × Prompt) :=
  findPendingFrom ws.currentIndex ws.processedPrompts 0 ws.prompts

/-- The check `prompts.every(p => p.status === 'completed' || p.status === 'failed')`. -/
def allDone (prompts : List Prompt) : Bool :=
  prompts.all (fun p => decide (p.status = Status.completed ∨ p.status = Status.failed))

/-- Source `workflowCompleted()`: stop the run, clear the dispatch interval and
notify the popup with `WORKFLOW_COMPLETED`. -/
def workflowCompleted (st : BgState) : BgState × List Notification :=
  ({ st with ws := { st.ws with isRunning := false, isPaused := false }, timerArmed := false },
   [Notification.workflowCompleted])

/-- Source `processNextPrompt()`, one dispatch tick.  `delegationOk` models
whether `chrome.tabs.sendMessage(activeTabId, {type:'SUBMIT_PROMPT',...})`
resolves (throwing lands in the `catch` branch).  Returns the new state
and the notifications sent to the popup. -/
def processNextPrompt (st : BgState) (delegationOk : Bool) : BgState × List Notification :=
  if st.ws.isRunning = false ∨ st.ws.isPaused = true then (st, [])
  else
    match findPending st.ws with
    | none =>
      if allDone st.ws.prompts = true then workflowCompleted st else (st, [])
    | some (pendingIndex, prompt) =>
      if delegationOk then
        let submitted := { prompt with status := Status.submitted }
        ({ st with ws := { st.ws with
            currentIndex := pendingIndex,
            processedPrompts := prompt.id :: st.ws.processedPrompts,
            prompts := st.ws.prompts.set pendingIndex submitted } },
         [Notification.promptSubmitted prompt.id (pendingIndex + 1)])
      else
        ({ st with ws := { st.ws with currentIndex := pendingIndex } },
         [Notification.errorMsg ("Failed to submit prompt " ++ toString (pendingIndex + 1))])

/-- Source `startWorkflowLoop()`: clear any armed interval, run one tick
immediately, then arm the interval. -/
def startWorkflowLoop (st : BgState) (delegationOk : Bool) : BgState × List Notification :=
  let ticked := processNextPrompt { st with timerArmed := false } delegationOk
  ({ ticked.1 with timerArmed := true }, ticked.2)

/-- The `prompts.forEach` of `startWorkflow`: collect the ids of items
before `startIndex` or already terminal into `processedPrompts`. -/
def initialProcessed : List Prompt → Nat → Nat → List Nat
  | [], _, _ => []
  | p :: rest, i, startIndex =>
    if i < startIndex ∨ p.status = Status.completed ∨ p.status = Status.failed then
      p.id :: initialProcessed rest (i + 1) startIndex
    else
      initialProcessed rest (i + 1) startIndex

/-- Source `startWorkflow(prompts, settings, startIndex)`. -/
def startWorkflow (st : BgState) (prompts : List Prompt) (settings : Settings)
    (startIndex : Nat) (env : Env) : BgState × List Notification :=
  let ws := { st.ws with
    prompts := prompts, settings := settings, currentIndex := startIndex,
    isRunning := true, isPaused := false,
    processedPrompts := initialProcessed prompts 0 startIndex }
  if env.tabOnFlowPage then
    startWorkflowLoop { st with ws := ws } env.delegationOk
  else
    ({ st with ws := ws }, [Notification.errorMsg "Please navigate to Google Flow first"])

/-- Source `resumeWorkflow(currentIndex)`. -/
def resumeWorkflow (st : BgState) (currentIndex : Nat) (env : Env) :
    BgState × List Notification :=
  let ws := { st.ws with currentIndex := currentIndex, isRunning := true, isPaused := false }
  if env.tabOnFlowPage then
    startWorkflowLoop { st with ws := ws } env.delegationOk
  else
    ({ st with ws := ws }, [])

/-- Source `pauseWorkflow()`. -/
def pauseWorkflow (st : BgState) : BgState :=
  { st with ws := { st.ws with isPaused := true, isRunning := false }, timerArmed := false }

/-- Source `stopWorkflow()`. -/
def stopWorkflow (st : BgState) : BgState :=
  { st with ws := { st.ws with isRunning := false, isPaused := false }, timerArmed := false }

/-- The background's `clearAll()`: wipe prompts, cursor, run flags,
`processedPrompts` and `pendingDownloads`, and clear the interval. -/
def clearAll (st : BgState) : BgState :=
  { st with
    ws := { st.ws with
      prompts := [], currentIndex := 0, isRunning := false, isPaused := false,
      processedPrompts := [], pendingDownloads := [] },
    timerArmed := false }

/-- The `url.startsWith('blob:')` test of `downloadImage`, rendered as a
prefix test on the character data so that it computes in the kernel. -/
def strStartsWith (s pre : String) : Bool := pre.data.isPrefixOf s.data

/-- Source `downloadImage(url, filename, promptId)`: a `blob:` URL is delegated
to the content script with a `DOWNLOAD_BLOB` tab message; other URLs go
through `chrome.downloads.download`, whose completion listener later
calls `checkDownloadComplete` (modelled as a separate intake event). -/
def downloadImage (url filename : String) (promptId : Nat) : List TabMessage :=
  if strStartsWith url "blob:" then [TabMessage.downloadBlob url filename promptId] else []

/-- The download loop of `handleImageGenerated`: one `downloadImage` per
URL with filename `Scene <id> Image <n>.png`, `n` 1-based. -/
def downloadImages (folderName : String) (sceneNumber promptId : Nat) :
    List String → Nat → List TabMessage
  | [], _ => []
  | url :: rest, i =>
    downloadImage url
        (folderName ++ "/Scene " ++ toString sceneNumber ++ " Image " ++ toString (i + 1) ++ ".png")
        promptId
      ++ downloadImages folderName sceneNumber promptId rest (i + 1)

/-- Source `handleImageGenerated(promptId, imageUrls)`: an empty URL list is a
generation failure; otherwise record `{ total, completed: 0 }` under
`pendingDownloads` and start one download per URL.  Returns the tab
messages emitted for blob URLs. -/
def handleImageGenerated (ws : WorkflowState) (promptId : Nat) (imageUrls : List String) :
    WorkflowState × List Notification × List TabMessage :=
  if imageUrls.isEmpty then
    let failed := handleGenerationFailed ws promptId "No images generated"
    (failed.1, failed.2, [])
  else
    match ws.prompts.find? (fun p => p.id == promptId) with
    | none => (ws, [], [])
    | some prompt =>
      let folderName :=
        if ws.settings.downloadFolder = "" then "FlowGenerations" else ws.settings.downloadFolder
      ({ ws with pendingDownloads := setPending ws.pendingDownloads promptId imageUrls.length 0 },
       [],
       downloadImages folderName prompt.id promptId imageUrls 0)

/-- The `message.type` strings that have a `case` in the background's
`handleMessage` switch, in source order. -/
def backgroundHandledMessageTypes : List String :=
  ["START_WORKFLOW", "RESUME_WORKFLOW", "PAUSE_WORKFLOW", "STOP_WORKFLOW", "CLEAR_ALL",
   "UPDATE_SETTINGS", "UPDATE_PROMPTS", "CREATE_NEW_PROJECT", "IMAGE_GENERATED",
   "IMAGE_DOWNLOAD_COMPLETE", "GENERATION_FAILED", "GET_STATE"]

/-- The `type` of the message `downloadBlobImage` in the content script
sends back to the background once a blob is converted to a data URL. -/
def downloadBlobReplyType : String := "DOWNLOAD_DATA_URL"

/-- The background's `handleMessage` switch.  Returns the new state, the
notifications sent to the popup, and the `success` flag of the response
(`false` exactly in the default `Unknown message type` branch, which
performs no state change).  `CREATE_NEW_PROJECT` only navigates the tab
and re-injects the content script; it does not touch `workflowState`. -/
def handleMessage (st : BgState) (m : Message) (env : Env) :
    BgState × List Notification × Bool :=
  if m.type = "START_WORKFLOW" then
    let r := startWorkflow st m.prompts m.settings m.startIndex env
    (r.1, r.2, true)
  else if m.type = "RESUME_WORKFLOW" then
    let r := resumeWorkflow st m.currentIndex env
    (r.1, r.2, true)
  else if m.type = "PAUSE_WORKFLOW" then (pauseWorkflow st, [], true)
  else if m.type = "STOP_WORKFLOW" then (stopWorkflow st, [], true)
  else if m.type = "CLEAR_ALL" then (clearAll st, [], true)
  else if m.type = "UPDATE_SETTINGS" then
    ({ st with ws := { st.ws with settings := m.settings } }, [], true)
  else if m.type = "UPDATE_PROMPTS" then
    ({ st with ws := { st.ws with prompts := m.prompts } }, [], true)
  else if m.type = "CREATE_NEW_PROJECT" then (st, [], true)
  else if m.type = "IMAGE_GENERATED" then
    let r := handleImageGenerated st.ws m.promptId m.imageUrls
    ({ st with ws := r.1 }, r.2.1, true)
  else if m.type = "IMAGE_DOWNLOAD_COMPLETE" then
    let r := handleDownloadComplete st.ws m.promptId
    ({ st with ws := r.1 }, r.2, true)
  else if m.type = "GENERATION_FAILED" then
    let r := handleGenerationFailed st.ws m.promptId m.error
    ({ st with ws := r.1 }, r.2, true)
  else if m.type = "GET_STATE" then (st, [], true)
  else (st, [], false)

/-- The popup's workflow status strings
(`idle, running, paused, stopped, completed`). -/
inductive RunStatus
  | idle
  | running
  | paused
  | stopped
  | completed
  deriving DecidableEq

/-- The popup's `state.workflow` object. -/
structure PopupWorkflow where
  status : RunStatus
  currentIndex : Nat
  startTime : Option Nat
  elapsedSeconds : Nat
  deriving DecidableEq

/-- The popup's `state` object (the prompt registry lives here). -/
structure PopupState where
  prompts : List Prompt
  settings : Settings
  workflow : PopupWorkflow
  deriving DecidableEq

/-- The index-carrying `newPrompts.map((text, index) => ({...}))` of
`addPrompts`: each new item gets id `startIndex + index + 1`, status
`pending` and the creation timestamp. -/
def mkPromptItems (startIndex : Nat) (texts : List String) (now : Nat) : List Prompt :=
  match texts with
  | [] => []
  | t :: rest =>
    { id := startIndex + 1, text := t, status := Status.pending, error := none,
      createdAt := now } :: mkPromptItems (startIndex + 1) rest now

/-- Source `addPrompts(newPrompts)`: append items built from
`startIndex = state.prompts.length`. -/
def addPrompts (prompts : List Prompt) (newTexts : List String) (now : Nat) : List Prompt :=
  prompts ++ mkPromptItems prompts.length newTexts now

/-- A whole session of `addPrompts` calls starting from the empty
registry, each batch carrying its own creation time. -/
def appendBatches (batches : List (List String × Nat)) : List Prompt :=
  batches.foldl (fun acc b => addPrompts acc b.1 b.2) []

/-- The popup's `handleClear()`: rejected with a toast while the
workflow status is `running`; otherwise, once the user confirms, the
registry is emptied, the workflow is reset to `idle` and a `CLEAR_ALL`
message is sent to the background.  The returned flag is whether
`CLEAR_ALL` was sent. -/
def handleClear (st : PopupState) (confirmed : Bool) : PopupState × Bool :=
  if st.workflow.status = RunStatus.running then (st, false)
  else if confirmed then
    let freshWorkflow : PopupWorkflow :=
      { status := RunStatus.idle, currentIndex := 0, startTime := none, elapsedSeconds := 0 }
    ({ st with prompts := [], workflow := freshWorkflow }, true)
  else (st, false)

/-- The popup and the background together (the `CLEAR_ALL` message is
only ever sent by `handleClear`). -/
structure System where
  popup : PopupState
  bg : BgState
  deriving DecidableEq

/-- A clear-all request end to end: the popup's `handleClear`, and the
background's `clearAll` when the `CLEAR_ALL` message is sent. -/
def clearAllSystem (sys : System) (confirmed : Bool) : System :=
  let r := handleClear sys.popup confirmed
  { popup := r.1, bg := if r.2 then clearAll sys.bg else sys.bg }

/-- The capped percentage computed by the popup's `updateProgressBar`:
`submitted` counts as half progress, `completed` and `failed` as full;
`Math.round` is round-half-up, which is Mathlib's `round` on `Rat`. -/
def updateProgressPercentage (prompts : List Prompt) : Int :=
  let total := prompts.length
  let submitted := (prompts.filter (fun p => decide (p.status = Status.submitted))).length
  let completed := (prompts.filter (fun p => decide (p.status = Status.completed))).length
  let failed := (prompts.filter (fun p => decide (p.status = Status.failed))).length
  let progress : Rat := (completed : Rat) + (failed : Rat) + (submitted : Rat) * (1 / 2)
  let percentage : Int := if 0 < total then round (progress / (total : Rat) * 100) else 0
  min percentage 100

/-- Modelled from the spec: the displayed progress percentage as the spec
words it, `round(100 * (completed + failed + 0.5 * submitted) / total)`
capped at 100, and 0 when the registry is empty. -/
def specProgressPercentage (completed failed submitted total : Nat) : Int :=
  if total = 0 then 0
  else
    min (round ((100 : Rat) * ((completed : Rat) + (failed : Rat) + (1 / 2) * (submitted : Rat))
          / (total : Rat))) 100

/-- Whether a tab message is a `DOWNLOAD_BLOB` delegation for the given
prompt id. -/
def isDelegatedBlobDownload (promptId : Nat) : TabMessage → Bool
  | TabMessage.downloadBlob _ _ pid => pid == promptId
  | _ => false

/-! ### Concrete states used by the claim scenarios -/

/-- A concrete registry state whose only item is already `completed`,
inside an otherwise idle workflow state. -/
def wsC1 : WorkflowState :=
  { isRunning := false, isPaused := false, currentIndex := 0,
    prompts := [{ id := 1, text := "a scene", status := Status.completed }],
    settings := ⟨2, "FlowGenerations", 2⟩, pendingDownloads := [], processedPrompts := [] }

/-- A concrete registry state whose only item is already `failed`. -/
def wsC1f : WorkflowState :=
  { wsC1 with prompts := [{ id := 1, text := "a scene", status := Status.failed,
                            error := some "first" }] }

/-- A concrete registry whose only item is `pending` with id 2. -/
def wsC2 : WorkflowState :=
  { wsC1 with prompts := [{ id := 2, text := "b scene", status := Status.pending }] }

/-- A concrete pending item for the dispatch-failure scenario. -/
def promptC3 : Prompt := { id := 1, text := "c scene", status := Status.pending }

/-- A concrete running background state with one pending item and the
dispatch interval armed. -/
def stC3 : BgState :=
  { ws := { isRunning := true, isPaused := false, currentIndex := 0, prompts := [promptC3],
            settings := ⟨2, "FlowGenerations", 2⟩, pendingDownloads := [],
            processedPrompts := [] },
    timerArmed := true }

/-- A concrete paused popup+background pair for the clear-all scenario:
one submitted item, a pending-download entry and a processed id. -/
def popupC4 : PopupState :=
  { prompts := [{ id := 1, text := "a scene", status := Status.submitted }],
    settings := ⟨2, "FlowGenerations", 2⟩,
    workflow := { status := RunStatus.paused, currentIndex := 1, startTime := some 100,
                  elapsedSeconds := 30 } }

/-- The background side of the paused clear-all scenario. -/
def bgC4 : BgState :=
  { ws := { isRunning := false, isPaused := true, currentIndex := 1,
            prompts := [{ id := 1, text := "a scene", status := Status.submitted }],
            settings := ⟨2, "FlowGenerations", 2⟩, pendingDownloads := [(1, 2, 1)],
            processedPrompts := [1] },
    timerArmed := false }

/-- The paused system for the clear-all scenario. -/
def sysC4paused : System := { popup := popupC4, bg := bgC4 }

/-- The same system while running. -/
def sysC4run : System :=
  { popup := { popupC4 with
      workflow := { popupC4.workflow with status := RunStatus.running } },
    bg := { bgC4 with
      ws := { bgC4.ws with isRunning := true, isPaused := false }, timerArmed := true } }

/-- First item of the dispatch-selection scenario (already processed). -/
def promptC5a : Prompt := { id := 1, text := "a scene", status := Status.pending }

/-- Second item of the dispatch-selection scenario (eligible). -/
def promptC5b : Prompt := { id := 2, text := "b scene", status := Status.pending }

/-- A running state in which item 1 is pending but already in
`processedPrompts`, so the scan must skip it and select item 2. -/
def stC5 : BgState :=
  { ws := { isRunning := true, isPaused := false, currentIndex := 0,
            prompts := [promptC5a, promptC5b], settings := ⟨2, "FlowGenerations", 2⟩,
            pendingDownloads := [], processedPrompts := [1] },
    timerArmed := true }

/-- A running state whose items are all terminal. -/
def stC6 : BgState :=
  { ws := { isRunning := true, isPaused := false, currentIndex := 0,
            prompts := [{ id := 1, text := "a scene", status := Status.completed },
                        { id := 2, text := "b scene", status := Status.failed,
                          error := some "timeout" }],
            settings := ⟨2, "FlowGenerations", 2⟩, pendingDownloads := [],
            processedPrompts := [1, 2] },
    timerArmed := true }

/-- The submitted item awaiting blob downloads. -/
def promptC9 : Prompt := { id := 1, text := "a scene", status := Status.submitted }

/-- A running state with one submitted item, about to receive blob URLs. -/
def stC9 : BgState :=
  { ws := { isRunning := true, isPaused := false, currentIndex := 0, prompts := [promptC9],
            settings := ⟨2, "FlowGenerations", 2⟩, pendingDownloads := [],
            processedPrompts := [1] },
    timerArmed := true }

/-- The `DOWNLOAD_DATA_URL` reply the content script sends after
converting a blob. -/
def msgC9 : Message :=
  { type := "DOWNLOAD_DATA_URL", promptId := 1, dataUrl := "data:image/png;base64,xyz",
    filename := "FlowGenerations/Scene 1 Image 1.png" }

/-- A running state with an empty registry and the interval armed. -/
def stC10 : BgState :=
  { ws := { isRunning := true, isPaused := false, currentIndex := 0, prompts := [],
            settings := ⟨2, "FlowGenerations", 2⟩, pendingDownloads := [],
            processedPrompts := [] },
    timerArmed := true }

/-! ### Helper lemmas -/

theorem find?_updateFirst (promptId : Nat) (f : Prompt → Prompt)
    (hf : ∀ p, (f p).id = p.id) :
    ∀ (l : List Prompt) (p : Prompt),
      l.find? (fun q => q.id == promptId) = some p →
      (updateFirst l promptId f).find? (fun q => q.id == promptId) = some (f p) := by
  intro l
  induction l with
  | nil => intro p h; simp [List.find?] at h
  | cons hd tl ih =>
    intro p h
    cases hid : hd.id == promptId with
    | true =>
      rw [List.find?_cons] at h
      simp only [hid] at h
      injection h with h
      subst h
      have hfid : ((f hd).id == promptId) = true := by rw [hf hd]; exact hid
      simp only [updateFirst, hid, if_true, List.find?_cons, hfid]
    | false =>
      rw [List.find?_cons] at h
      simp only [hid] at h
      simp only [updateFirst, hid, Bool.false_eq_true, if_false, List.find?_cons]
      exact ih p h

/-- Running `handleGenerationFailed` on an existing item: the item ends `failed`
with the given reason, whatever its previous status, and `PROMPT_FAILED`
is notified. -/
theorem handleGenerationFailed_found (ws : WorkflowState) (promptId : Nat) (err : String)
    (p : Prompt) (hfind : ws.prompts.find? (fun q => q.id == promptId) = some p) :
    statusOf (handleGenerationFailed ws promptId err).1.prompts promptId = some Status.failed
    ∧ errorOf (handleGenerationFailed ws promptId err).1.prompts promptId = some (some err)
    ∧ (handleGenerationFailed ws promptId err).1.prompts.find? (fun q => q.id == promptId)
        = some { p with status := Status.failed, error := some err }
    ∧ (handleGenerationFailed ws promptId err).2 = [Notification.promptFailed promptId err] := by
  have hres : (handleGenerationFailed ws promptId err).1.prompts
      = updateFirst ws.prompts promptId
          (fun q => { q with status := Status.failed, error := some err }) := by
    simp only [handleGenerationFailed, hfind]
  have hfind2 := find?_updateFirst promptId
    (fun q => { q with status := Status.failed, error := some err }) (fun _ => rfl)
    ws.prompts p hfind
  refine ⟨?_, ?_, ?_, ?_⟩
  · rw [hres]; simp only [statusOf, hfind2]; rfl
  · rw [hres]; simp only [errorOf, hfind2]; rfl
  · rw [hres]; exact hfind2
  · simp only [handleGenerationFailed, hfind]

/-- Running `handleDownloadComplete` on an existing item: the item ends
`completed`, whatever its previous status. -/
theorem handleDownloadComplete_found (ws : WorkflowState) (promptId : Nat)
    (p : Prompt) (hfind : ws.prompts.find? (fun q => q.id == promptId) = some p) :
    statusOf (handleDownloadComplete ws promptId).1.prompts promptId = some Status.completed
    ∧ (handleDownloadComplete ws promptId).2 = [Notification.promptCompleted promptId] := by
  have hres : (handleDownloadComplete ws promptId).1.prompts
      = updateFirst ws.prompts promptId (fun q => { q with status := Status.completed }) := by
    simp only [handleDownloadComplete, hfind]
  have hfind2 := find?_updateFirst promptId
    (fun q => { q with status := Status.completed }) (fun _ => rfl) ws.prompts p hfind
  constructor
  · rw [hres]; simp only [statusOf, hfind2]; rfl
  · simp only [handleDownloadComplete, hfind]

/-- Soundness of the dispatch scan: a hit is an eligible item at its
reported position, and every earlier position holds no eligible item. -/
theorem findPendingFrom_spec (cursor : Nat) (processed : List Nat) :
    ∀ (l : List Prompt) (i k : Nat) (p : Prompt),
      findPendingFrom cursor processed i l = some (k, p) →
      ∃ j, k = i + j ∧ l[j]? = some p ∧ eligibleAt cursor processed k p ∧
        ∀ m, m < j → ∀ q, l[m]? = some q → ¬ eligibleAt cursor processed (i + m) q := by
  intro l
  induction l with
  | nil => intro i k p h; simp [findPendingFrom] at h
  | cons hd tl ih =>
    intro i k p h
    by_cases hc : eligibleAt cursor processed i hd
    · rw [findPendingFrom, if_pos hc] at h
      injection h with h
      obtain ⟨rfl, rfl⟩ := Prod.mk.injEq .. ▸ And.intro (congrArg Prod.fst h) (congrArg Prod.snd h)
      refine ⟨0, by omega, by simp, hc, ?_⟩
      intro m hm
      omega
    · rw [findPendingFrom, if_neg hc] at h
      obtain ⟨j, hk, hget, helig, hfirst⟩ := ih (i + 1) k p h
      refine ⟨j + 1, by omega, by simpa using hget, helig, ?_⟩
      intro m hm q hq
      match m with
      | 0 =>
        simp only [List.getElem?_cons_zero] at hq
        injection hq with hq
        subst hq
        simpa using hc
      | Nat.succ m =>
        simp only [List.getElem?_cons_succ] at hq
        have := hfirst m (by omega) q hq
        have harith : i + (m + 1) = i + 1 + m := by omega
        rw [harith]
        exact this

/-- Once the cursor sits exactly on an eligible item's position, the
scan returns that item: all earlier positions fail the
`i >= currentIndex` test. -/
theorem findPendingFrom_self (processed : List Nat) (p : Prompt)
    (hp : p.status = Status.pending) (hpr : p.id ∉ processed) :
    ∀ (l : List Prompt) (i k : Nat), i ≤ k → l[k - i]? = some p →
      findPendingFrom k processed i l = some (k, p) := by
  intro l
  induction l with
  | nil => intro i k _ hget; simp at hget
  | cons hd tl ih =>
    intro i k hik hget
    rcases Nat.lt_or_ge i k with hlt | hge
    · have hne : ¬ eligibleAt k processed i hd := fun hcontra => absurd hcontra.1 (by omega)
      rw [findPendingFrom, if_neg hne]
      have hsub : k - i = (k - (i + 1)) + 1 := by omega
      rw [hsub, List.getElem?_cons_succ] at hget
      exact ih (i + 1) k (by omega) hget
    · have hik2 : i = k := by omega
      subst hik2
      rw [Nat.sub_self, List.getElem?_cons_zero] at hget
      injection hget with hget
      subst hget
      rw [findPendingFrom, if_pos ⟨Nat.le_refl i, hp, hpr⟩]

/-- When every item is terminal, the dispatch scan finds nothing:
no item has status `pending`. -/
theorem findPendingFrom_none_of_allDone (cursor : Nat) (processed : List Nat) :
    ∀ (l : List Prompt), allDone l = true →
      ∀ i, findPendingFrom cursor processed i l = none := by
  intro l
  induction l with
  | nil => intro _ i; rfl
  | cons hd tl ih =>
    intro h i
    simp only [allDone, List.all_cons, Bool.and_eq_true, decide_eq_true_eq] at h
    obtain ⟨h1, h2⟩ := h
    have hne : ¬ eligibleAt cursor processed i hd := by
      intro hc
      rcases h1 with h1 | h1 <;> rw [hc.2.1] at h1 <;> exact Status.noConfusion h1
    rw [findPendingFrom, if_neg hne]
    exact ih (by simpa [allDone] using h2) (i + 1)

/-- A running tick whose scan hits `(k, p)` and whose delegation
succeeds: cursor moves to `k`, the id joins `processedPrompts`, the item
becomes `submitted`, and `PROMPT_SUBMITTED` is notified with the 1-based
position. -/
theorem processNextPrompt_success (st : BgState) (k : Nat) (p : Prompt)
    (hrun : st.ws.isRunning = true) (hpause : st.ws.isPaused = false)
    (hfind : findPending st.ws = some (k, p)) :
    processNextPrompt st true
      = ({ st with ws := { st.ws with
            currentIndex := k,
            processedPrompts := p.id :: st.ws.processedPrompts,
            prompts := st.ws.prompts.set k { p with status := Status.submitted } } },
         [Notification.promptSubmitted p.id (k + 1)]) := by
  have hguard : ¬(st.ws.isRunning = false ∨ st.ws.isPaused = true) := by
    simp [hrun, hpause]
  simp only [processNextPrompt, if_neg hguard, hfind, if_true]

/-- Setting a `pendingDownloads` entry makes it the looked-up value. -/
theorem lookupPending_setPending (id t c : Nat) :
    ∀ (pd : List (Nat × Nat × Nat)), lookupPending (setPending pd id t c) id = some (t, c) := by
  intro pd
  induction pd with
  | nil => simp [setPending, lookupPending]
  | cons e rest ih =>
    obtain ⟨k, t0, c0⟩ := e
    by_cases hk : k = id
    · subst hk
      simp [setPending, lookupPending]
    · simp only [setPending, if_neg hk, lookupPending]
      exact ih

/-- A message whose type has no `case` in the background switch lands in
the default branch: no state change, no notification, `success: false`. -/
theorem handleMessage_unknown (st : BgState) (m : Message) (env : Env)
    (h : m.type ∉ backgroundHandledMessageTypes) :
    handleMessage st m env = (st, [], false) := by
  simp only [backgroundHandledMessageTypes, List.mem_cons, List.mem_singleton, not_or] at h
  obtain ⟨h1, h2, h3, h4, h5, h6, h7, h8, h9, h10, h11, h12⟩ := h
  simp only [handleMessage, h1, h2, h3, h4, h5, h6, h7, h8, h9, h10, h11, h12, if_false]

/-- The items built by one `addPrompts` batch carry the consecutive ids
`startIndex + 1, ..., startIndex + texts.length` and start `pending`. -/
theorem mkPromptItems_ids (now : Nat) :
    ∀ (texts : List String) (startIndex : Nat),
      (mkPromptItems startIndex texts now).map (fun p => p.id)
          = List.range' (startIndex + 1) texts.length
      ∧ ∀ p ∈ mkPromptItems startIndex texts now, p.status = Status.pending := by
  intro texts
  induction texts with
  | nil => intro s; simp [mkPromptItems]
  | cons t rest ih =>
    intro s
    obtain ⟨ih1, ih2⟩ := ih (s + 1)
    constructor
    · simp only [mkPromptItems, List.map_cons, List.length_cons, List.range'_succ, ih1]
    · intro p hp
      simp only [mkPromptItems, List.mem_cons] at hp
      rcases hp with hp | hp
      · subst hp; rfl
      · exact ih2 p hp

/-- Invariant of the whole-session registry: ids are exactly
`1, ..., length` in order and every item is `pending`. -/
theorem appendBatches_invariant :
    ∀ (batches : List (List String × Nat)) (r : List Prompt),
      r.map (fun p => p.id) = List.range' 1 r.length →
      (∀ p ∈ r, p.status = Status.pending) →
      (batches.foldl (fun acc b => addPrompts acc b.1 b.2) r).map (fun p => p.id)
          = List.range' 1 (batches.foldl (fun acc b => addPrompts acc b.1 b.2) r).length
      ∧ ∀ p ∈ batches.foldl (fun acc b => addPrompts acc b.1 b.2) r,
          p.status = Status.pending := by
  intro batches
  induction batches with
  | nil => intro r h1 h2; exact ⟨h1, h2⟩
  | cons b rest ih =>
    intro r h1 h2
    simp only [List.foldl_cons]
    obtain ⟨m1, m2⟩ := mkPromptItems_ids b.2 b.1 r.length
    refine ih (addPrompts r b.1 b.2) ?_ ?_
    · simp only [addPrompts, List.map_append, List.length_append, h1, m1]
      have := List.range'_append_1 1 r.length b.1.length
      rw [Nat.add_comm 1 r.length] at this
      have hlen : (mkPromptItems r.length b.1 b.2).length = b.1.length := by
        have := congrArg List.length m1
        simpa using this
      rw [hlen, this, Nat.add_comm b.1.length r.length]
    · intro p hp
      simp only [addPrompts, List.mem_append] at hp
      rcases hp with hp | hp
      · exact h2 p hp
      · exact m2 p hp

/-- Running `downloadImages` over blob-only URLs: exactly one `DOWNLOAD_BLOB`
delegation per URL, all tagged with the prompt's id. -/
theorem downloadImages_blob (folderName : String) (sceneNumber promptId : Nat) :
    ∀ (urls : List String) (i : Nat),
      (∀ u ∈ urls, strStartsWith u "blob:" = true) →
      (downloadImages folderName sceneNumber promptId urls i).length = urls.length
      ∧ (downloadImages folderName sceneNumber promptId urls i).all
          (isDelegatedBlobDownload promptId) = true := by
  intro urls
  induction urls with
  | nil => intro i _; simp [downloadImages]
  | cons u rest ih =>
    intro i h
    have hu : strStartsWith u "blob:" = true := h u (List.mem_cons_self u rest)
    obtain ⟨ih1, ih2⟩ := ih (i + 1) (fun v hv => h v (List.mem_cons_of_mem u hv))
    constructor
    · simp only [downloadImages, downloadImage, hu, if_true, List.length_append,
        List.length_cons, List.length_singleton, List.length_nil, ih1]
      omega
    · simp only [downloadImages, downloadImage, hu, if_true, List.all_append, ih2,
        Bool.and_true, List.all_cons, List.all_nil, Bool.and_true]
      simp [isDelegatedBlobDownload]

/-! ### Claim C1 -/

/-- C1 counterexample: terminal statuses are not protected.  For the item
that is already `completed`, a late `GENERATION_FAILED` signal sets it to
`failed`; for the item that is already `failed`, a late download-complete
signal sets it to `completed`.  Neither is a no-op. -/
theorem c1_counterexample :
    statusOf wsC1.prompts 1 = some Status.completed
    ∧ statusOf (handleGenerationFailed wsC1 1 "late failure").1.prompts 1 = some Status.failed
    ∧ statusOf wsC1f.prompts 1 = some Status.failed
    ∧ statusOf (handleDownloadComplete wsC1f 1).1.prompts 1 = some Status.completed := by
  refine ⟨rfl, ?_, rfl, ?_⟩ <;> rfl

/-- C1 amended: an item's status moves `pending → submitted →
{completed | failed}` under the dispatch tick and the intake handlers,
but a terminal status is not protected: whenever the item exists,
`handleGenerationFailed` sets it to `failed` (recording the new reason)
and `handleDownloadComplete` sets it to `completed`, whatever status —
including a terminal one — the item had; the last signal wins. -/
theorem c1_terminal_overwrite (ws : WorkflowState) (promptId : Nat) (err : String) (p : Prompt)
    (hfind : ws.prompts.find? (fun q => q.id == promptId) = some p) :
    statusOf (handleGenerationFailed ws promptId err).1.prompts promptId = some Status.failed
    ∧ errorOf (handleGenerationFailed ws promptId err).1.prompts promptId = some (some err)
    ∧ statusOf (handleDownloadComplete ws promptId).1.prompts promptId
        = some Status.completed := by
  obtain ⟨h1, h2, _, _⟩ := handleGenerationFailed_found ws promptId err p hfind
  obtain ⟨h3, _⟩ := handleDownloadComplete_found ws promptId p hfind
  exact ⟨h1, h2, h3⟩

/-- C1 witness: the amended statement evaluated on a concrete
already-completed item. -/
theorem c1_witness :
    statusOf (handleGenerationFailed wsC1 1 "boom").1.prompts 1 = some Status.failed
    ∧ errorOf (handleGenerationFailed wsC1 1 "boom").1.prompts 1 = some (some "boom")
    ∧ statusOf (handleDownloadComplete wsC1 1).1.prompts 1 = some Status.completed :=
  c1_terminal_overwrite wsC1 1 "boom"
    { id := 1, text := "a scene", status := Status.completed } rfl

/-! ### Claim C2 -/

/-- C2 counterexample: a second `GENERATION_FAILED` for an already-failed
item is not a no-op.  After `onGenerationFailed(2, "timeout")` twice with
a different second reason, the recorded reason is the second one, not the
first, and observers are notified again. -/
theorem c2_counterexample :
    errorOf (handleGenerationFailed wsC2 2 "timeout").1.prompts 2 = some (some "timeout")
    ∧ errorOf (handleGenerationFailed
        (handleGenerationFailed wsC2 2 "timeout").1 2 "second").1.prompts 2
        = some (some "second")
    ∧ (handleGenerationFailed (handleGenerationFailed wsC2 2 "timeout").1 2 "second").2
        = [Notification.promptFailed 2 "second"] := by
  refine ⟨?_, ?_, ?_⟩ <;> rfl

/-- C2 amended: a second `handleGenerationFailed` for an id whose item is
already `failed` leaves the status `failed` but overwrites the recorded
reason with the new one and notifies observers again; it is not a no-op. -/
theorem c2_second_failure_overwrites (ws : WorkflowState) (promptId : Nat) (r1 r2 : String)
    (p : Prompt) (hfind : ws.prompts.find? (fun q => q.id == promptId) = some p) :
    statusOf (handleGenerationFailed ws promptId r1).1.prompts promptId = some Status.failed
    ∧ errorOf (handleGenerationFailed ws promptId r1).1.prompts promptId = some (some r1)
    ∧ statusOf (handleGenerationFailed
        (handleGenerationFailed ws promptId r1).1 promptId r2).1.prompts promptId
        = some Status.failed
    ∧ errorOf (handleGenerationFailed
        (handleGenerationFailed ws promptId r1).1 promptId r2).1.prompts promptId
        = some (some r2)
    ∧ (handleGenerationFailed (handleGenerationFailed ws promptId r1).1 promptId r2).2
        = [Notification.promptFailed promptId r2] := by
  obtain ⟨h1, h2, hfind1, _⟩ := handleGenerationFailed_found ws promptId r1 p hfind
  obtain ⟨h3, h4, _, h5⟩ := handleGenerationFailed_found
    (handleGenerationFailed ws promptId r1).1 promptId r2 _ hfind1
  exact ⟨h1, h2, h3, h4, h5⟩

/-- C2 witness: the amended statement on the concrete double-failure
scenario of the spec. -/
theorem c2_witness :
    statusOf (handleGenerationFailed wsC2 2 "timeout").1.prompts 2 = some Status.failed
    ∧ errorOf (handleGenerationFailed wsC2 2 "timeout").1.prompts 2 = some (some "timeout")
    ∧ statusOf (handleGenerationFailed
        (handleGenerationFailed wsC2 2 "timeout").1 2 "retry timeout").1.prompts 2
        = some Status.failed
    ∧ errorOf (handleGenerationFailed
        (handleGenerationFailed wsC2 2 "timeout").1 2 "retry timeout").1.prompts 2
        = some (some "retry timeout")
    ∧ (handleGenerationFailed (handleGenerationFailed wsC2 2 "timeout").1 2 "retry timeout").2
        = [Notification.promptFailed 2 "retry timeout"] :=
  c2_second_failure_overwrites wsC2 2 "timeout" "retry timeout"
    { id := 2, text := "b scene", status := Status.pending } rfl

/-! ### Claim C3 -/

/-- C3 counterexample: after a failed delegation the run keeps going
(`isRunning` still true, interval still armed, item still `pending`), and
the very next timer tick re-dispatches the same item with no user action
— the claim's "not automatically re-dispatched by later timer ticks" is
false. -/
theorem c3_counterexample :
    (processNextPrompt stC3 false).1.ws.isRunning = true
    ∧ (processNextPrompt stC3 false).1.timerArmed = true
    ∧ statusOf (processNextPrompt stC3 false).1.ws.prompts 1 = some Status.pending
    ∧ (processNextPrompt (processNextPrompt stC3 false).1 true).2
        = [Notification.promptSubmitted 1 1] := by
  exact ⟨rfl, rfl, rfl, rfl⟩

/-- C3 amended: when delegation of a dispatch fails, the item's status
stays `pending`, its id is not added to `processedPrompts`, a recoverable
error is surfaced to the UI, and the run stays live — so the same item is
selected again and automatically re-dispatched by the next timer tick; no
explicit user re-run is required. -/
theorem c3_dispatch_failure_retries (st : BgState) (k : Nat) (p : Prompt)
    (hrun : st.ws.isRunning = true) (hpause : st.ws.isPaused = false)
    (hfind : findPending st.ws = some (k, p)) :
    (processNextPrompt st false).1.ws.prompts = st.ws.prompts
    ∧ (processNextPrompt st false).1.ws.processedPrompts = st.ws.processedPrompts
    ∧ (processNextPrompt st false).2
        = [Notification.errorMsg ("Failed to submit prompt " ++ toString (k + 1))]
    ∧ (processNextPrompt st false).1.ws.isRunning = true
    ∧ (processNextPrompt st false).1.timerArmed = st.timerArmed
    ∧ findPending (processNextPrompt st false).1.ws = some (k, p)
    ∧ (processNextPrompt (processNextPrompt st false).1 true).2
        = [Notification.promptSubmitted p.id (k + 1)] := by
  have hguard : ¬(st.ws.isRunning = false ∨ st.ws.isPaused = true) := by
    simp [hrun, hpause]
  have hfail : processNextPrompt st false
      = ({ st with ws := { st.ws with currentIndex := k } },
         [Notification.errorMsg ("Failed to submit prompt " ++ toString (k + 1))]) := by
    simp only [processNextPrompt, if_neg hguard, hfind, Bool.false_eq_true, if_false]
  have hspec := findPendingFrom_spec st.ws.currentIndex st.ws.processedPrompts
    st.ws.prompts 0 k p hfind
  obtain ⟨j, hj, hget, helig, _⟩ := hspec
  have hjk : j = k := by omega
  subst hjk
  have hresel : findPendingFrom j st.ws.processedPrompts 0 st.ws.prompts = some (j, p) := by
    refine findPendingFrom_self st.ws.processedPrompts p helig.2.1 helig.2.2
      st.ws.prompts 0 j (Nat.zero_le j) ?_
    simpa using hget
  have hresel2 : findPending (processNextPrompt st false).1.ws = some (j, p) := by
    rw [hfail]
    exact hresel
  refine ⟨by simp [hfail], by simp [hfail], by simp [hfail], by simp [hfail, hrun],
    by simp [hfail], hresel2, ?_⟩
  have hsucc := processNextPrompt_success (processNextPrompt st false).1 j p
    (by simp [hfail, hrun]) (by simp [hfail, hpause]) hresel2
  rw [hsucc]

/-- C3 witness: the amended statement on the concrete one-item running
state. -/
theorem c3_witness :
    (processNextPrompt stC3 false).1.ws.prompts = stC3.ws.prompts
    ∧ (processNextPrompt stC3 false).1.ws.processedPrompts = stC3.ws.processedPrompts
    ∧ (processNextPrompt stC3 false).2
        = [Notification.errorMsg ("Failed to submit prompt " ++ toString (0 + 1))]
    ∧ (processNextPrompt stC3 false).1.ws.isRunning = true
    ∧ (processNextPrompt stC3 false).1.timerArmed = stC3.timerArmed
    ∧ findPending (processNextPrompt stC3 false).1.ws = some (0, promptC3)
    ∧ (processNextPrompt (processNextPrompt stC3 false).1 true).2
        = [Notification.promptSubmitted promptC3.id (0 + 1)] :=
  c3_dispatch_failure_retries stC3 0 promptC3 rfl rfl rfl

/-! ### Claim C4 -/

/-- C4: a clear-all request while the workflow status is `running` is
rejected with no effect on either side; while `paused` or `stopped`, once
confirmed, it empties the registry, clears `processedPrompts` and
`pendingDownloads`, stops the run, disarms the timer and leaves the
workflow status `idle`. -/
theorem c4_clearAll_guarded (sys : System) (confirmed : Bool) :
    (sys.popup.workflow.status = RunStatus.running → clearAllSystem sys confirmed = sys)
    ∧ ((sys.popup.workflow.status = RunStatus.paused
          ∨ sys.popup.workflow.status = RunStatus.stopped) →
        confirmed = true →
        (clearAllSystem sys confirmed).popup.prompts = []
        ∧ (clearAllSystem sys confirmed).popup.workflow.status = RunStatus.idle
        ∧ (clearAllSystem sys confirmed).bg.ws.prompts = []
        ∧ (clearAllSystem sys confirmed).bg.ws.processedPrompts = []
        ∧ (clearAllSystem sys confirmed).bg.ws.pendingDownloads = []
        ∧ (clearAllSystem sys confirmed).bg.ws.isRunning = false
        ∧ (clearAllSystem sys confirmed).bg.ws.isPaused = false
        ∧ (clearAllSystem sys confirmed).bg.timerArmed = false) := by
  constructor
  · intro hrun
    simp [clearAllSystem, handleClear, hrun]
  · intro hstatus hconf
    subst hconf
    have hne : ¬ sys.popup.workflow.status = RunStatus.running := by
      rcases hstatus with h | h <;> simp [h]
    simp [clearAllSystem, handleClear, hne, clearAll]

/-- C4 witness: rejection on the concrete running system, and the full
wipe on the concrete paused system. -/
theorem c4_witness :
    (clearAllSystem sysC4run true = sysC4run)
    ∧ ((clearAllSystem sysC4paused true).popup.prompts = []
        ∧ (clearAllSystem sysC4paused true).popup.workflow.status = RunStatus.idle
        ∧ (clearAllSystem sysC4paused true).bg.ws.prompts = []
        ∧ (clearAllSystem sysC4paused true).bg.ws.processedPrompts = []
        ∧ (clearAllSystem sysC4paused true).bg.ws.pendingDownloads = []
        ∧ (clearAllSystem sysC4paused true).bg.ws.isRunning = false
        ∧ (clearAllSystem sysC4paused true).bg.ws.isPaused = false
        ∧ (clearAllSystem sysC4paused true).bg.timerArmed = false) :=
  ⟨(c4_clearAll_guarded sysC4run true).1 rfl,
   (c4_clearAll_guarded sysC4paused true).2 (Or.inl rfl) rfl⟩

/-! ### Claim C5 -/

/-- C5: a dispatch tick that runs while the workflow is running selects
exactly the first position at or past the cursor holding a `pending` item
whose id is not in `processedPrompts`: the selected `(k, p)` is eligible,
any earlier position is not, and in particular the selected id is not in
`processedPrompts`; the tick then submits exactly that item. -/
theorem c5_tick_selects_first_eligible (st : BgState) (k : Nat) (p : Prompt)
    (m : Nat) (q : Prompt)
    (hrun : st.ws.isRunning = true) (hpause : st.ws.isPaused = false)
    (hfind : findPending st.ws = some (k, p))
    (hm : m < k) (hq : st.ws.prompts[m]? = some q) :
    st.ws.prompts[k]? = some p
    ∧ st.ws.currentIndex ≤ k
    ∧ p.status = Status.pending
    ∧ p.id ∉ st.ws.processedPrompts
    ∧ ¬ eligibleAt st.ws.currentIndex st.ws.processedPrompts m q
    ∧ (processNextPrompt st true).2 = [Notification.promptSubmitted p.id (k + 1)] := by
  obtain ⟨j, hj, hget, helig, hfirst⟩ := findPendingFrom_spec st.ws.currentIndex
    st.ws.processedPrompts st.ws.prompts 0 k p hfind
  have hjk : j = k := by omega
  subst hjk
  have h5 : ¬ eligibleAt st.ws.currentIndex st.ws.processedPrompts m q := by
    have := hfirst m (by omega) q hq
    simpa using this
  refine ⟨hget, helig.1, helig.2.1, helig.2.2, h5, ?_⟩
  rw [processNextPrompt_success st j p hrun hpause hfind]

/-- C5 witness: on the concrete two-item state with item 1 already in
`processedPrompts`, the tick skips position 0 and submits item 2. -/
theorem c5_witness :
    stC5.ws.prompts[1]? = some promptC5b
    ∧ stC5.ws.currentIndex ≤ 1
    ∧ promptC5b.status = Status.pending
    ∧ promptC5b.id ∉ stC5.ws.processedPrompts
    ∧ ¬ eligibleAt stC5.ws.currentIndex stC5.ws.processedPrompts 0 promptC5a
    ∧ (processNextPrompt stC5 true).2 = [Notification.promptSubmitted promptC5b.id (1 + 1)] :=
  c5_tick_selects_first_eligible stC5 1 promptC5b 0 promptC5a rfl rfl rfl
    (by decide) rfl

/-! ### Claim C6 -/

/-- C6: a running tick transitions the workflow to completed exactly when
every item's status is terminal (in which case the scan necessarily finds
nothing): it then disarms the timer, stops the run and fires the
`WORKFLOW_COMPLETED` notification; when the scan finds nothing but some
item is still non-terminal, the tick leaves the state unchanged. -/
theorem c6_completed_iff_all_terminal (st : BgState) (ok : Bool)
    (hrun : st.ws.isRunning = true) (hpause : st.ws.isPaused = false) :
    (allDone st.ws.prompts = true →
      processNextPrompt st ok = workflowCompleted st
      ∧ (processNextPrompt st ok).1.timerArmed = false
      ∧ (processNextPrompt st ok).1.ws.isRunning = false
      ∧ (processNextPrompt st ok).2 = [Notification.workflowCompleted])
    ∧ (allDone st.ws.prompts = false → findPending st.ws = none →
        processNextPrompt st ok = (st, []))
    ∧ (Notification.workflowCompleted ∈ (processNextPrompt st ok).2
        ↔ allDone st.ws.prompts = true) := by
  have hguard : ¬(st.ws.isRunning = false ∨ st.ws.isPaused = true) := by
    simp [hrun, hpause]
  cases hall : allDone st.ws.prompts with
  | true =>
    have hnone : findPending st.ws = none :=
      findPendingFrom_none_of_allDone st.ws.currentIndex st.ws.processedPrompts
        st.ws.prompts hall 0
    have hval : processNextPrompt st ok = workflowCompleted st := by
      simp only [processNextPrompt, if_neg hguard, hnone, hall, if_true]
    refine ⟨fun _ => ⟨hval, by rw [hval]; rfl, by rw [hval]; rfl, by rw [hval]; rfl⟩, ?_, ?_⟩
    · intro hfalse
      exact Bool.noConfusion hfalse
    · rw [hval]
      simp [workflowCompleted]
  | false =>
    refine ⟨?_, ?_, ?_⟩
    · intro htrue
      exact Bool.noConfusion htrue
    · intro _ hnone
      simp only [processNextPrompt, if_neg hguard, hnone, hall, Bool.false_eq_true, if_false]
    · refine iff_of_false ?_ (by simp)
      intro hmem
      cases hfp : findPending st.ws with
      | none =>
        rw [show processNextPrompt st ok = (st, []) from by
          simp only [processNextPrompt, if_neg hguard, hfp, hall, Bool.false_eq_true,
            if_false]] at hmem
        simp at hmem
      | some kp =>
        obtain ⟨k, p⟩ := kp
        cases ok with
        | true =>
          rw [processNextPrompt_success st k p hrun hpause hfp] at hmem
          simp at hmem
        | false =>
          rw [show processNextPrompt st false
              = ({ st with ws := { st.ws with currentIndex := k } },
                 [Notification.errorMsg ("Failed to submit prompt " ++ toString (k + 1))])
            from by
              simp only [processNextPrompt, if_neg hguard, hfp, Bool.false_eq_true,
                if_false]] at hmem
          simp at hmem

/-- C6 witness: on the concrete all-terminal running state, the tick is
the completion transition. -/
theorem c6_witness :
    (allDone stC6.ws.prompts = true →
      processNextPrompt stC6 true = workflowCompleted stC6
      ∧ (processNextPrompt stC6 true).1.timerArmed = false
      ∧ (processNextPrompt stC6 true).1.ws.isRunning = false
      ∧ (processNextPrompt stC6 true).2 = [Notification.workflowCompleted])
    ∧ (allDone stC6.ws.prompts = false → findPending stC6.ws = none →
        processNextPrompt stC6 true = (stC6, []))
    ∧ (Notification.workflowCompleted ∈ (processNextPrompt stC6 true).2
        ↔ allDone stC6.ws.prompts = true) :=
  c6_completed_iff_all_terminal stC6 true rfl rfl

/-! ### Claim C10 -/

/-- C10: a tick that fires while the workflow is running over an empty
registry finds every item vacuously terminal and immediately completes:
the dispatch interval is disarmed, `WORKFLOW_COMPLETED` is the only
notification (in particular no `PROMPT_SUBMITTED`), and no item was ever
dispatched (`processedPrompts` is untouched). -/
theorem c10_empty_registry_completes (st : BgState) (ok : Bool)
    (hempty : st.ws.prompts = [])
    (hrun : st.ws.isRunning = true) (hpause : st.ws.isPaused = false) :
    processNextPrompt st ok = workflowCompleted st
    ∧ (processNextPrompt st ok).1.timerArmed = false
    ∧ (processNextPrompt st ok).1.ws.isRunning = false
    ∧ (processNextPrompt st ok).2 = [Notification.workflowCompleted]
    ∧ (processNextPrompt st ok).1.ws.processedPrompts = st.ws.processedPrompts := by
  have hguard : ¬(st.ws.isRunning = false ∨ st.ws.isPaused = true) := by
    simp [hrun, hpause]
  have hall : allDone st.ws.prompts = true := by rw [hempty]; rfl
  have hnone : findPending st.ws = none :=
    findPendingFrom_none_of_allDone st.ws.currentIndex st.ws.processedPrompts
      st.ws.prompts hall 0
  have hval : processNextPrompt st ok = workflowCompleted st := by
    simp only [processNextPrompt, if_neg hguard, hnone, hall, if_true]
  exact ⟨hval, by rw [hval]; rfl, by rw [hval]; rfl, by rw [hval]; rfl, by rw [hval]; rfl⟩

/-- C10 witness: the empty-registry completion on the concrete state. -/
theorem c10_witness :
    processNextPrompt stC10 true = workflowCompleted stC10
    ∧ (processNextPrompt stC10 true).1.timerArmed = false
    ∧ (processNextPrompt stC10 true).1.ws.isRunning = false
    ∧ (processNextPrompt stC10 true).2 = [Notification.workflowCompleted]
    ∧ (processNextPrompt stC10 true).1.ws.processedPrompts = stC10.ws.processedPrompts :=
  c10_empty_registry_completes stC10 true rfl rfl rfl

/-! ### Claim C7 -/

/-- C7: over any whole session of `addPrompts` calls starting from the
empty registry, the assigned ids are exactly `1, 2, ..., n` in order —
1-based, strictly increasing, unique, and each batch continuing
sequentially from the current maximum — and every appended item starts
`pending`. -/
theorem c7_append_ids (batches : List (List String × Nat)) :
    (appendBatches batches).map (fun p => p.id)
        = List.range' 1 (appendBatches batches).length
    ∧ List.Pairwise (fun a b => a < b) ((appendBatches batches).map (fun p => p.id))
    ∧ (appendBatches batches).all (fun p => decide (p.status = Status.pending)) = true := by
  obtain ⟨h1, h2⟩ := appendBatches_invariant batches [] (by simp) (by simp)
  refine ⟨h1, ?_, ?_⟩
  · rw [show (appendBatches batches).map (fun p => p.id)
        = List.range' 1 (appendBatches batches).length from h1]
    exact List.pairwise_lt_range' 1 (appendBatches batches).length
  · rw [List.all_eq_true]
    intro p hp
    simpa using h2 p hp

/-! ### Claim C8 -/

/-- C8: the displayed capped progress percentage computed by
`updateProgressBar` equals the spec formula
`round(100 * (completed + failed + 0.5 * submitted) / total)` capped at
100, and is 0 on the empty registry. -/
theorem c8_progress_formula (prompts : List Prompt) :
    updateProgressPercentage prompts
      = specProgressPercentage
          (prompts.filter (fun p => decide (p.status = Status.completed))).length
          (prompts.filter (fun p => decide (p.status = Status.failed))).length
          (prompts.filter (fun p => decide (p.status = Status.submitted))).length
          prompts.length
    ∧ updateProgressPercentage [] = 0 := by
  constructor
  · by_cases h : prompts.length = 0
    · simp [updateProgressPercentage, specProgressPercentage, h]
    · have hpos : 0 < prompts.length := Nat.pos_of_ne_zero h
      simp only [updateProgressPercentage, specProgressPercentage, if_pos hpos, if_neg h]
      congr 2
      have ht : (prompts.length : Rat) ≠ 0 := by
        exact_mod_cast h
      field_simp
      ring
  · rfl

/-! ### Claim C9 -/

/-- C9: for an existing item whose detected output URLs all start with
`blob:`, `handleImageGenerated` delegates one `DOWNLOAD_BLOB` per URL to
the content script and records `{ total, completed: 0 }`; the content
script's `DOWNLOAD_DATA_URL` reply has no case in the background switch,
so any sequence of such replies leaves the background state — in
particular the zero `completed` count — untouched, and the item (not
already completed) never reaches status `completed`. -/
theorem c9_blob_downloads_never_complete (st : BgState) (promptId : Nat)
    (urls : List String) (p : Prompt) (ms : List Message) (env : Env)
    (hfind : st.ws.prompts.find? (fun q => q.id == promptId) = some p)
    (hne : urls ≠ [])
    (hblob : ∀ u ∈ urls, strStartsWith u "blob:" = true)
    (hstat : p.status ≠ Status.completed)
    (hms : ∀ m ∈ ms, m.type = downloadBlobReplyType) :
    downloadBlobReplyType ∉ backgroundHandledMessageTypes
    ∧ (handleImageGenerated st.ws promptId urls).2.2.length = urls.length
    ∧ (handleImageGenerated st.ws promptId urls).2.2.all (isDelegatedBlobDownload promptId)
        = true
    ∧ (handleImageGenerated st.ws promptId urls).1.prompts = st.ws.prompts
    ∧ lookupPending (handleImageGenerated st.ws promptId urls).1.pendingDownloads promptId
        = some (urls.length, 0)
    ∧ ms.foldl (fun s m => (handleMessage s m env).1)
        { st with ws := (handleImageGenerated st.ws promptId urls).1 }
        = { st with ws := (handleImageGenerated st.ws promptId urls).1 }
    ∧ statusOf (ms.foldl (fun s m => (handleMessage s m env).1)
          { st with ws := (handleImageGenerated st.ws promptId urls).1 }).ws.prompts promptId
        ≠ some Status.completed := by
  have hie : urls.isEmpty = false := by
    cases urls with
    | nil => exact absurd rfl hne
    | cons a l => rfl
  have hIG : handleImageGenerated st.ws promptId urls
      = ({ st.ws with
            pendingDownloads := setPending st.ws.pendingDownloads promptId urls.length 0 },
         [],
         downloadImages
           (if st.ws.settings.downloadFolder = "" then "FlowGenerations"
            else st.ws.settings.downloadFolder) p.id promptId urls 0) := by
    simp only [handleImageGenerated, hie, Bool.false_eq_true, if_false, hfind]
  obtain ⟨hlen, hall⟩ := downloadImages_blob
    (if st.ws.settings.downloadFolder = "" then "FlowGenerations"
     else st.ws.settings.downloadFolder) p.id promptId urls 0 hblob
  have hfold : ∀ (msl : List Message) (s2 : BgState),
      (∀ m ∈ msl, m.type = downloadBlobReplyType) →
      msl.foldl (fun s m => (handleMessage s m env).1) s2 = s2 := by
    intro msl
    induction msl with
    | nil => intro s2 _; rfl
    | cons mm rest ih =>
      intro s2 hmm
      rw [List.foldl_cons]
      have hunk : handleMessage s2 mm env = (s2, [], false) := by
        apply handleMessage_unknown
        rw [hmm mm (List.mem_cons_self mm rest)]
        decide
      rw [hunk]
      exact ih s2 (fun m hm => hmm m (List.mem_cons_of_mem mm hm))
  have h6 := hfold ms { st with ws := (handleImageGenerated st.ws promptId urls).1 } hms
  refine ⟨by decide, by rw [hIG]; exact hlen, by rw [hIG]; exact hall, by rw [hIG],
    by rw [hIG]; exact lookupPending_setPending promptId urls.length 0 st.ws.pendingDownloads,
    h6, ?_⟩
  rw [h6]
  show statusOf (handleImageGenerated st.ws promptId urls).1.prompts promptId
      ≠ some Status.completed
  rw [hIG]
  show statusOf st.ws.prompts promptId ≠ some Status.completed
  simp only [statusOf, hfind, Option.map_some', ne_eq, Option.some.injEq]
  exact hstat

/-- C9 witness: the concrete submitted item with two blob URLs and one
`DOWNLOAD_DATA_URL` reply. -/
theorem c9_witness :
    downloadBlobReplyType ∉ backgroundHandledMessageTypes
    ∧ (handleImageGenerated stC9.ws 1 ["blob:one", "blob:two"]).2.2.length
        = (["blob:one", "blob:two"] : List String).length
    ∧ (handleImageGenerated stC9.ws 1 ["blob:one", "blob:two"]).2.2.all
        (isDelegatedBlobDownload 1) = true
    ∧ (handleImageGenerated stC9.ws 1 ["blob:one", "blob:two"]).1.prompts = stC9.ws.prompts
    ∧ lookupPending (handleImageGenerated stC9.ws 1 ["blob:one", "blob:two"]).1.pendingDownloads 1
        = some ((["blob:one", "blob:two"] : List String).length, 0)
    ∧ ([msgC9] : List Message).foldl (fun s m => (handleMessage s m ⟨true, true⟩).1)
        { stC9 with ws := (handleImageGenerated stC9.ws 1 ["blob:one", "blob:two"]).1 }
        = { stC9 with ws := (handleImageGenerated stC9.ws 1 ["blob:one", "blob:two"]).1 }
    ∧ statusOf (([msgC9] : List Message).foldl (fun s m => (handleMessage s m ⟨true, true⟩).1)
          { stC9 with ws := (handleImageGenerated stC9.ws 1 ["blob:one", "blob:two"]).1 }).ws.prompts 1
        ≠ some Status.completed :=
  c9_blob_downloads_never_complete stC9 1 ["blob:one", "blob:two"] promptC9 [msgC9]
    ⟨true, true⟩ rfl (by decide) (by decide) (by decide) (by decide)

end Flow
